import Mathlib

/-!
Verification of the todo-api-backend core (Go) against its specification.

The Go source is shallowly embedded: pure functions become Lean functions,
the relational store becomes an explicit list of records threaded through
the repository operations, Go errors become an explicit error datatype, and
fallible operations return `Except`.  External collaborators (the bcrypt
library, the golang-jwt parsing pipeline, gorm record lookup, the gin
request context) are modelled by their documented contracts; all logic of
the repository itself (pkg/password, pkg/jwt, internal/middleware,
internal/repository, internal/service, internal/handler) is translated
line by line from the source.
-/

/-- Go error values as they flow through the program.  Sentinel errors
created with errors.New in the source each get one constructor; an error
built with fmt.Errorf("...: %w", err) becomes `wrapf`.  Distinct
constructors model distinct sentinel identities (Go errors.Is compares by
identity, not by message). -/
inductive GoError where
  | todoNotFound
  | unauthorizedAccess
  | emailAlreadyExists
  | invalidCredentials
  | userNotFound
  | gormRecordNotFound
  | invalidPassword
  | hashingFailed
  | verificationFailed
  | jwtInvalidToken
  | jwtExpiredToken
  | jwtTokenClaims
  | bcryptMismatch
  | wrapf (pre : String) (inner : GoError)
deriving DecidableEq, Repr

/-- The message carried by each error value: the argument the source passes
to errors.New, and prefix-plus-inner-message for fmt.Errorf wrapping. -/
def GoError.message : GoError → String
  | .todoNotFound => "todo not found"
  | .unauthorizedAccess => "unauthorized access to todo"
  | .emailAlreadyExists => "email already exists"
  | .invalidCredentials => "invalid email or password"
  | .userNotFound => "user not found"
  | .gormRecordNotFound => "record not found"
  | .invalidPassword => "invalid password"
  | .hashingFailed => "password hashing failed"
  | .verificationFailed => "password verification failed"
  | .jwtInvalidToken => "invalid token"
  | .jwtExpiredToken => "token has expired"
  | .jwtTokenClaims => "invalid token claims"
  | .bcryptMismatch => "crypto/bcrypt: hashedPassword is not the hash of the given password"
  | .wrapf pre inner => pre ++ ": " ++ inner.message

/-- Go errors.Is: the target matches the error itself or anything in its
unwrap chain. -/
def GoError.is : GoError → GoError → Bool
  | .wrapf pre inner, target => (GoError.wrapf pre inner == target) || inner.is target
  | e, target => e == target

/-! ## pkg/password/hash.go -/

/-- MinPasswordLength from pkg/password/hash.go. -/
def MinPasswordLength : Nat := 8

/-- MaxPasswordLength from pkg/password/hash.go. -/
def MaxPasswordLength : Nat := 128

/-- DefaultCost from pkg/password/hash.go. -/
def DefaultCost : Nat := 12

/-- Model of a bcrypt hash string produced by the external
golang.org/x/crypto/bcrypt library: the hash is determined by the cost,
the per-call random salt, and the password, and is otherwise opaque. -/
structure BcryptHash where
  cost : Nat
  salt : Nat
  password : String
deriving DecidableEq, Repr

/-- Modelled contract of bcrypt.GenerateFromPassword: produces a salted
hash of the password (the salt is passed explicitly here to make the
per-call randomness a parameter of the model). -/
def bcryptGenerateFromPassword (password : String) (cost salt : Nat) : BcryptHash :=
  { cost := cost, salt := salt, password := password }

/-- Modelled contract of bcrypt.CompareHashAndPassword: succeeds exactly
when the password is the one the hash was generated from, and otherwise
fails with the library mismatch error. -/
def bcryptCompareHashAndPassword (hash : BcryptHash) (password : String) :
    Except GoError Unit :=
  if hash.password == password then .ok () else .error .bcryptMismatch

/-- Hasher from pkg/password/hash.go: carries the bcrypt cost factor. -/
structure Hasher where
  cost : Nat
deriving DecidableEq, Repr

/-- Hasher.HashPassword from pkg/password/hash.go: rejects passwords whose
length is below MinPasswordLength or above MaxPasswordLength with
ErrInvalidPassword, then hashes with bcrypt (the salt parameter models the
fresh per-call randomness; the bcrypt failure branch of the source maps
library errors to ErrHashingFailed and is unreachable in the modelled
contract). -/
def Hasher.HashPassword (h : Hasher) (salt : Nat) (password : String) :
    Except GoError BcryptHash :=
  if password.length < MinPasswordLength then .error .invalidPassword
  else if password.length > MaxPasswordLength then .error .invalidPassword
  else .ok (bcryptGenerateFromPassword password h.cost salt)

/-- Hasher.VerifyPassword from pkg/password/hash.go: same length gate as
HashPassword, then bcrypt comparison; every comparison failure (the
mismatch sentinel and any other library error alike) is mapped to
ErrVerificationFailed, mirroring the two identical branches of the
source. -/
def Hasher.VerifyPassword (h : Hasher) (hashedPassword : BcryptHash)
    (password : String) : Except GoError Unit :=
  if password.length < MinPasswordLength then .error .invalidPassword
  else if password.length > MaxPasswordLength then .error .invalidPassword
  else
    match bcryptCompareHashAndPassword hashedPassword password with
    | .error e =>
        if e.is .bcryptMismatch then .error .verificationFailed
        else .error .verificationFailed
    | .ok () => .ok ()

/-- ValidatePasswordStrength from pkg/password/hash.go: the same length
bounds, used by the registration path. -/
def ValidatePasswordStrength (password : String) : Except GoError Unit :=
  if password.length < MinPasswordLength then .error .invalidPassword
  else if password.length > MaxPasswordLength then .error .invalidPassword
  else .ok ()

/-! ## pkg/jwt (token manager) -/

/-- Claims from pkg/jwt: user id, email, and the registered timestamp
claims (unix seconds). -/
structure Claims where
  userID : Nat
  email : String
  expiresAt : Int
  issuedAt : Int
  notBefore : Int
deriving DecidableEq, Repr

/-- Signing algorithms a presented token may name in its header; the
manager only ever signs with HS256, but validation must face all of
them. -/
inductive JWTAlg where
  | HS256
  | HS384
  | HS512
  | RS256
  | ES256
  | algNone
deriving DecidableEq, Repr

/-- The HMAC family check performed by the keyfunc in
TokenManager.ValidateToken (the type switch on SigningMethodHMAC). -/
def JWTAlg.isHMAC : JWTAlg → Bool
  | .HS256 => true
  | .HS384 => true
  | .HS512 => true
  | _ => false

/-- Model of a presented token string as the golang-jwt v5 parser sees it:
whether the compact serialization is well formed and its claims JSON
decodes into the expected Claims shape, which algorithm the header names,
which key material the signature actually verifies under, and the decoded
claim set. -/
structure JWTToken where
  wellFormed : Bool
  alg : JWTAlg
  signedWith : String
  claims : Claims
deriving DecidableEq, Repr

/-- Failure modes of jwt.ParseWithClaims, in the order the v5 parser
checks them: malformed structure or undecodable claims, keyfunc rejection
(non-HMAC algorithm), signature mismatch, then claims validation (which
joins an expired flag and a not-yet-valid flag). -/
inductive JWTParseError where
  | malformed
  | unverifiable
  | signatureInvalid
  | invalidClaims (expired notYetValid : Bool)
deriving DecidableEq, Repr

/-- Go errors.Is(err, jwt.ErrTokenExpired) on a parse error: only a
claims-validation error that joined the expired sentinel matches. -/
def JWTParseError.isTokenExpired : JWTParseError → Bool
  | .invalidClaims expired _ => expired
  | _ => false

/-- Modelled contract of jwt.ParseWithClaims with the keyfunc used by
TokenManager.ValidateToken: structural parse first, then the keyfunc
algorithm check, then signature verification, then claims validation
(expiry: valid only while now is strictly before expires-at; not-before:
valid once now has reached it). -/
def jwtParseWithClaims (secretKey : String) (now : Int) (tok : JWTToken) :
    Except JWTParseError Claims :=
  if !tok.wellFormed then .error .malformed
  else if !tok.alg.isHMAC then .error .unverifiable
  else if tok.signedWith != secretKey then .error .signatureInvalid
  else
    let expired := decide (tok.claims.expiresAt ≤ now)
    let notYetValid := decide (now < tok.claims.notBefore)
    if expired || notYetValid then .error (.invalidClaims expired notYetValid)
    else .ok tok.claims

/-- TokenManager from pkg/jwt: symmetric secret and expiration duration
(held in seconds; NewTokenManager receives hours). -/
structure TokenManager where
  secretKey : String
  expiration : Int
deriving DecidableEq, Repr

/-- NewTokenManager from pkg/jwt. -/
def NewTokenManager (secretKey : String) (expirationHours : Int) : TokenManager :=
  { secretKey := secretKey, expiration := expirationHours * 3600 }

/-- TokenManager.GenerateToken from pkg/jwt: claims with issued-at and
not-before set to now and expires-at now plus the configured expiration,
signed HS256 with the manager secret. -/
def TokenManager.GenerateToken (tm : TokenManager) (now : Int) (userID : Nat)
    (email : String) : JWTToken :=
  { wellFormed := true
    alg := .HS256
    signedWith := tm.secretKey
    claims :=
      { userID := userID
        email := email
        expiresAt := now + tm.expiration
        issuedAt := now
        notBefore := now } }

/-- TokenManager.ValidateToken from pkg/jwt: parse, map an error matching
jwt.ErrTokenExpired to ErrExpiredToken and every other parse failure to
ErrInvalidToken.  The trailing source branch returning ErrTokenClaims
(failed type assertion to Claims, or token not valid despite a nil parse
error) cannot fire in the v5 parser contract, and accordingly has no
reachable counterpart here. -/
def TokenManager.ValidateToken (tm : TokenManager) (now : Int) (tok : JWTToken) :
    Except GoError Claims :=
  match jwtParseWithClaims tm.secretKey now tok with
  | .error e =>
      if e.isTokenExpired then .error .jwtExpiredToken
      else .error .jwtInvalidToken
  | .ok claims => .ok claims

/-! ## internal/middleware/auth.go -/

/-- Dynamic values stored in a gin request context: the middleware stores
a Go uint (natV) and a string (strV); the other constructors model values
of unexpected dynamic type that a type assertion must reject. -/
inductive GinValue where
  | natV (n : Nat)
  | strV (s : String)
  | intV (i : Int)
  | boolV (b : Bool)
deriving DecidableEq, Repr

/-- A gin request context as a request-scoped key-value store. -/
abbrev GinContext := List (String × GinValue)

/-- UserIDKey from internal/middleware/auth.go. -/
def UserIDKey : String := "user_id"

/-- UserEmailKey from internal/middleware/auth.go. -/
def UserEmailKey : String := "user_email"

/-- The constant holding the bearer scheme marker "Bearer " (with its
trailing space) from internal/middleware/auth.go. -/
def bearerScheme : String := "Bearer "

/-- Go strings.HasPrefix for the bearer scheme marker, over the
character sequences of the strings. -/
def hasBearerMarker (s : String) : Bool :=
  bearerScheme.data.isPrefixOf s.data

/-- Go strings.TrimPrefix for the bearer scheme marker, as used after the
HasPrefix check has succeeded. -/
def stripBearerMarker (s : String) : String :=
  String.mk (s.data.drop bearerScheme.data.length)

/-- Modelled contract of gin Context.Get: the stored value and an
existence flag. -/
def ginGet (c : GinContext) (key : String) : Option GinValue :=
  (c.find? (fun p => p.1 == key)).map (fun p => p.2)

/-- GetUserID from internal/middleware/auth.go: absent key gives (0,
false); a present value is type-asserted to uint, an assertion that on
failure yields the uint zero value and false. -/
def GetUserID (c : GinContext) : Nat × Bool :=
  match ginGet c UserIDKey with
  | none => (0, false)
  | some v =>
      match v with
      | .natV n => (n, true)
      | _ => (0, false)

/-- GetUserEmail from internal/middleware/auth.go: absent key gives ("",
false); a present value is type-asserted to string, an assertion that on
failure yields the empty string and false. -/
def GetUserEmail (c : GinContext) : String × Bool :=
  match ginGet c UserEmailKey with
  | none => ("", false)
  | some v =>
      match v with
      | .strV s => (s, true)
      | _ => ("", false)

/-- Outcome of running the auth middleware on one request: either it
writes an error response and aborts (the downstream handler is never
invoked), or it injects the identity into the request context and calls
Next. -/
inductive MiddlewareOutcome where
  | reject (status : Nat) (err msg : String)
  | proceed (c : GinContext)
deriving DecidableEq, Repr

/-- AuthMiddleware from internal/middleware/auth.go, as a function of the
Authorization header value (gin GetHeader returns the empty string for an
absent header) and of the token-validation function the closure captures.
Each failure path responds 401 and aborts; success stores the user id and
email under their context keys and continues. -/
def AuthMiddleware (validateToken : String → Except GoError Claims)
    (authHeader : String) : MiddlewareOutcome :=
  if authHeader == "" then
    .reject 401 "unauthorized" "Authorization header is required"
  else if !(hasBearerMarker authHeader) then
    .reject 401 "unauthorized" "Authorization header must start with \x27Bearer \x27"
  else
    let tokenString := stripBearerMarker authHeader
    if tokenString == "" then
      .reject 401 "unauthorized" "Token is required"
    else
      match validateToken tokenString with
      | .error e =>
          let msg :=
            if e == .jwtExpiredToken then "Token has expired"
            else if e == .jwtInvalidToken then "Invalid token"
            else if e == .jwtTokenClaims then "Invalid token claims"
            else "Token validation failed"
          .reject 401 "unauthorized" msg
      | .ok claims =>
          .proceed [(UserIDKey, GinValue.natV claims.userID),
                    (UserEmailKey, GinValue.strV claims.email)]

/-! ## internal/model -/

/-- Todo from internal/model/todo.go (the gorm timestamp columns and the
preloaded User association play no part in the verified operations and are
omitted). -/
structure Todo where
  id : Nat
  title : String
  description : String
  completed : Bool
  userID : Nat
deriving DecidableEq, Repr

/-- User from internal/model/user.go: the Password column holds the bcrypt
hash string, modelled with the bcrypt hash type (timestamps and the Todos
association omitted as above). -/
structure User where
  id : Nat
  email : String
  password : BcryptHash
deriving DecidableEq, Repr

/-- UserInfo from internal/model/user.go: the public view, without the
password hash. -/
structure UserInfo where
  id : Nat
  email : String
deriving DecidableEq, Repr

/-- User.ToUserInfo from internal/model/user.go. -/
def User.ToUserInfo (u : User) : UserInfo :=
  { id := u.id, email := u.email }

/-- RegisterRequest from internal/model/request.go. -/
structure RegisterRequest where
  email : String
  password : String
deriving DecidableEq, Repr

/-- LoginRequest from internal/model/request.go. -/
structure LoginRequest where
  email : String
  password : String
deriving DecidableEq, Repr

/-- UpdateTodoRequest from internal/model/request.go: three independently
optional fields (Go pointer fields; nil becomes none). -/
structure UpdateTodoRequest where
  title : Option String
  description : Option String
  completed : Option Bool
deriving DecidableEq, Repr

/-- AuthResponse from internal/model/response.go. -/
structure AuthResponse where
  token : JWTToken
  user : UserInfo
deriving DecidableEq, Repr

/-! ## internal/repository

The gorm-backed repositories run scoped single-row queries; they are
embedded over an explicit list of rows, with gorm First returning the
first matching row or ErrRecordNotFound. -/

/-- The todo repository GetByID from internal/repository: the query
scoped by id and owner together (Where id and user id, then First). -/
def todoRepoGetByID (db : List Todo) (id userID : Nat) : Except GoError Todo :=
  match db.find? (fun t => t.id == id && t.userID == userID) with
  | some t => .ok t
  | none => .error .gormRecordNotFound

/-- The todo repository Delete from internal/repository: the delete
scoped by id and owner; gorm reports the affected row count, and zero
affected rows becomes ErrRecordNotFound.  On success the resulting table
is returned. -/
def todoRepoDelete (db : List Todo) (id userID : Nat) : Except GoError (List Todo) :=
  let remaining := db.filter (fun t => !(t.id == id && t.userID == userID))
  if remaining.length == db.length then .error .gormRecordNotFound
  else .ok remaining

/-- The todo repository Update from internal/repository: gorm Save writes
the record by primary key; embedded as replacing the row with the matching
id. -/
def todoRepoUpdate (db : List Todo) (todo : Todo) : List Todo :=
  db.map (fun t => if t.id == todo.id then todo else t)

/-- The user repository GetByEmail from internal/repository: Where email,
then First. -/
def userRepoGetByEmail (users : List User) (email : String) : Except GoError User :=
  match users.find? (fun u => u.email == email) with
  | some u => .ok u
  | none => .error .gormRecordNotFound

/-- The user repository Create from internal/repository: gorm Create
inserts the row (the model assigns the id upstream, as the service reads
user.ID back after creation). -/
def userRepoCreate (users : List User) (user : User) : List User :=
  users ++ [user]

/-! ## internal/service/todo.go -/

/-- The todo service GetByID from internal/service/todo.go: scoped fetch,
ErrRecordNotFound becomes ErrTodoNotFound, any other fetch error is
wrapped; then the defensive ownership re-check yielding
ErrUnauthorizedAccess. -/
def todoServiceGetByID (db : List Todo) (id userID : Nat) : Except GoError Todo :=
  match todoRepoGetByID db id userID with
  | .error e =>
      if e.is .gormRecordNotFound then .error .todoNotFound
      else .error (.wrapf "failed to get todo" e)
  | .ok todo =>
      if todo.userID != userID then .error .unauthorizedAccess
      else .ok todo

/-- The todo service Update from internal/service/todo.go: scoped fetch
with the same error translation and defensive re-check, then each request
field that is present overwrites the corresponding todo field, then the
merged record is saved; the merged record and the resulting table are
returned. -/
def todoServiceUpdate (db : List Todo) (id : Nat) (req : UpdateTodoRequest)
    (userID : Nat) : Except GoError (Todo × List Todo) :=
  match todoRepoGetByID db id userID with
  | .error e =>
      if e.is .gormRecordNotFound then .error .todoNotFound
      else .error (.wrapf "failed to get todo" e)
  | .ok existingTodo =>
      if existingTodo.userID != userID then .error .unauthorizedAccess
      else
        let updated :=
          { existingTodo with
              title := req.title.getD existingTodo.title
              description := req.description.getD existingTodo.description
              completed := req.completed.getD existingTodo.completed }
        .ok (updated, todoRepoUpdate db updated)

/-- The todo service Delete from internal/service/todo.go: an existence
and ownership check by scoped fetch (ErrRecordNotFound becomes
ErrTodoNotFound, other errors wrapped), then the scoped repository delete,
any error of which is wrapped as a failed deletion.  The check and the
delete each read their own table state, so the state in between is free to
change (this is the race the claims discuss). -/
def todoServiceDelete (dbCheck dbDelete : List Todo) (id userID : Nat) :
    Except GoError (List Todo) :=
  match todoRepoGetByID dbCheck id userID with
  | .error e =>
      if e.is .gormRecordNotFound then .error .todoNotFound
      else .error (.wrapf "failed to verify todo ownership" e)
  | .ok _ =>
      match todoRepoDelete dbDelete id userID with
      | .error e => .error (.wrapf "failed to delete todo" e)
      | .ok db => .ok db

/-! ## internal/service (auth service) -/

/-- One call made on the user store during Register, recorded so that
store effects of the registration path can be stated. -/
inductive StoreCall where
  | getByEmail (email : String)
  | create (u : User)
deriving DecidableEq, Repr

/-- Whether a recorded store call is a Create. -/
def StoreCall.isCreate : StoreCall → Bool
  | .create _ => true
  | _ => false

/-- The auth service Register from the service layer: duplicate-email
check (a lookup error other than record-not-found propagates wrapped; a
found user yields ErrEmailAlreadyExists), password strength validation,
hashing, user creation, token issuance.  Returns the service result
together with the trace of user-store calls; the created user receives the
store-assigned id nextId. -/
def authServiceRegister (tm : TokenManager) (now : Int) (salt nextId : Nat)
    (users : List User) (req : RegisterRequest) :
    Except GoError AuthResponse × List StoreCall :=
  match userRepoGetByEmail users req.email with
  | .ok _ => (.error .emailAlreadyExists, [.getByEmail req.email])
  | .error e =>
      if !(e.is .gormRecordNotFound) then
        (.error (.wrapf "failed to check existing user" e), [.getByEmail req.email])
      else
        match ValidatePasswordStrength req.password with
        | .error e => (.error (.wrapf "password validation failed" e), [.getByEmail req.email])
        | .ok () =>
            match (Hasher.mk DefaultCost).HashPassword salt req.password with
            | .error e => (.error (.wrapf "failed to hash password" e), [.getByEmail req.email])
            | .ok hashedPassword =>
                let user : User := { id := nextId, email := req.email, password := hashedPassword }
                let token := tm.GenerateToken now user.id user.email
                (.ok { token := token, user := user.ToUserInfo },
                 [.getByEmail req.email, .create user])

/-- The auth service Login from the service layer: lookup by email
(record-not-found becomes ErrInvalidCredentials, other lookup errors
wrapped), password verification (any failure becomes
ErrInvalidCredentials), token issuance. -/
def authServiceLogin (tm : TokenManager) (now : Int) (users : List User)
    (req : LoginRequest) : Except GoError AuthResponse :=
  match userRepoGetByEmail users req.email with
  | .error e =>
      if e.is .gormRecordNotFound then .error .invalidCredentials
      else .error (.wrapf "failed to get user" e)
  | .ok user =>
      match (Hasher.mk DefaultCost).VerifyPassword user.password req.password with
      | .error _ => .error .invalidCredentials
      | .ok () =>
          .ok { token := tm.GenerateToken now user.id user.email
                user := user.ToUserInfo }

/-! ## internal/handler/todo.go -/

/-- The externally visible outcome of a handler: a success status with a
body, or an error status with the error slug and message of the JSON error
body. -/
inductive HandlerResult where
  | okTodo (status : Nat) (todo : Todo)
  | okAuth (status : Nat) (resp : AuthResponse)
  | noContent (status : Nat)
  | errorResp (status : Nat) (err msg : String)
deriving DecidableEq, Repr

/-- Handler.GetTodo from internal/handler/todo.go, after the middleware
has authenticated userID and the path id has parsed: the service error is
matched by its message, the todo-not-found text mapping to 404 and
everything else to 500. -/
def handlerGetTodo (db : List Todo) (userID id : Nat) : HandlerResult :=
  match todoServiceGetByID db id userID with
  | .error e =>
      if e.message == "todo not found" then
        .errorResp 404 "not_found" "Todo not found"
      else
        .errorResp 500 "retrieval_failed" "Failed to retrieve todo"
  | .ok todo => .okTodo 200 todo

/-- Handler.DeleteTodo from internal/handler/todo.go, after
authentication and id parsing: the service error is matched by its
message, todo-not-found mapping to 404 and everything else to 500; success
is 204 No Content. -/
def handlerDeleteTodo (dbCheck dbDelete : List Todo) (userID id : Nat) : HandlerResult :=
  match todoServiceDelete dbCheck dbDelete id userID with
  | .error e =>
      if e.message == "todo not found" then
        .errorResp 404 "not_found" "Todo not found"
      else
        .errorResp 500 "deletion_failed" "Failed to delete todo"
  | .ok _ => .noContent 204

/-- Handler.Login from the handler layer, after body binding and
validation: the service error is matched by its message against the two
literals of the switch, those mapping to 401 and everything else to
500. -/
def handlerLogin (tm : TokenManager) (now : Int) (users : List User)
    (req : LoginRequest) : HandlerResult :=
  match authServiceLogin tm now users req with
  | .error e =>
      if e.message == "invalid credentials" || e.message == "user not found" then
        .errorResp 401 "invalid_credentials" "Invalid email or password"
      else
        .errorResp 500 "login_failed" "Failed to authenticate user"
  | .ok resp => .okAuth 200 resp

/-! ## Theorems -/

/-- Helper: a scoped todo fetch that succeeds returns a todo owned by the
requesting user (the repository query filters on the owner column). -/
theorem todoRepoGetByID_ok_owner {db : List Todo} {id u : Nat} {t : Todo}
    (h : todoRepoGetByID db id u = .ok t) : t.userID = u := by
  unfold todoRepoGetByID at h
  cases hf : db.find? (fun t => t.id == id && t.userID == u) with
  | none => rw [hf] at h; exact absurd h (by simp)
  | some t0 =>
      rw [hf] at h
      have hp := List.find?_some hf
      have ht : t0 = t := by injection h
      subst ht
      simp only [Bool.and_eq_true, beq_iff_eq] at hp
      exact hp.2

/-- C4: for every password of valid length, hashing succeeds and verifying
the same password against the produced hash succeeds, while verifying any
other password of valid length fails with exactly ErrVerificationFailed
(never a raw bcrypt comparison error). -/
theorem hash_verify_roundtrip (cost salt : Nat) (p q : String)
    (hp1 : MinPasswordLength ≤ p.length) (hp2 : p.length ≤ MaxPasswordLength)
    (hq1 : MinPasswordLength ≤ q.length) (hq2 : q.length ≤ MaxPasswordLength)
    (hne : q ≠ p) :
    (Hasher.mk cost).HashPassword salt p = .ok (bcryptGenerateFromPassword p cost salt) ∧
    (Hasher.mk cost).VerifyPassword (bcryptGenerateFromPassword p cost salt) p = .ok () ∧
    (Hasher.mk cost).VerifyPassword (bcryptGenerateFromPassword p cost salt) q =
      .error .verificationFailed := by
  have h1 : ¬ p.length < MinPasswordLength := by omega
  have h2 : ¬ p.length > MaxPasswordLength := by omega
  have h3 : ¬ q.length < MinPasswordLength := by omega
  have h4 : ¬ q.length > MaxPasswordLength := by omega
  have h5 : (p == q) = false := beq_eq_false_iff_ne.mpr (fun hpq => hne hpq.symm)
  refine ⟨?_, ?_, ?_⟩ <;>
    simp [Hasher.HashPassword, Hasher.VerifyPassword, bcryptCompareHashAndPassword,
      bcryptGenerateFromPassword, h1, h2, h3, h4, h5]

/-- Witness for C4 at a concrete pair of valid passwords. -/
theorem hash_verify_roundtrip_witness :
    (Hasher.mk 12).HashPassword 0 "password123" =
      .ok (bcryptGenerateFromPassword "password123" 12 0) ∧
    (Hasher.mk 12).VerifyPassword (bcryptGenerateFromPassword "password123" 12 0)
      "password123" = .ok () ∧
    (Hasher.mk 12).VerifyPassword (bcryptGenerateFromPassword "password123" 12 0)
      "password124" = .error .verificationFailed :=
  hash_verify_roundtrip 12 0 "password123" "password124"
    (by decide) (by decide) (by decide) (by decide) (by decide)

/-- C5: every password outside the inclusive length bounds is rejected
with ErrInvalidPassword by both HashPassword and VerifyPassword, for every
cost, salt and stored hash. -/
theorem invalid_length_rejected (cost salt : Nat) (stored : BcryptHash) (p : String)
    (hbad : p.length < MinPasswordLength ∨ p.length > MaxPasswordLength) :
    (Hasher.mk cost).HashPassword salt p = .error .invalidPassword ∧
    (Hasher.mk cost).VerifyPassword stored p = .error .invalidPassword := by
  by_cases hlt : p.length < MinPasswordLength
  · constructor <;> simp [Hasher.HashPassword, Hasher.VerifyPassword, hlt]
  · have hgt : p.length > MaxPasswordLength := by
      rcases hbad with hb | hb
      · exact absurd hb hlt
      · exact hb
    constructor <;> simp [Hasher.HashPassword, Hasher.VerifyPassword, hlt, hgt]

/-- Witness for C5 at a concrete too-short password and arbitrary stored
hash. -/
theorem invalid_length_rejected_witness :
    (Hasher.mk 12).HashPassword 0 "short" = .error .invalidPassword ∧
    (Hasher.mk 12).VerifyPassword (bcryptGenerateFromPassword "password123" 12 0)
      "short" = .error .invalidPassword :=
  invalid_length_rejected 12 0 (bcryptGenerateFromPassword "password123" 12 0)
    "short" (Or.inl (by decide))

/-- C10: the context accessors are total functions of the request context;
each returns the zero value and false both when its key is absent and when
the stored value has an unexpected dynamic type, and returns the stored
value with true exactly when a value of the expected type is present. -/
theorem context_accessors_total (c : GinContext) :
    (ginGet c UserIDKey = none → GetUserID c = (0, false)) ∧
    (∀ v, ginGet c UserIDKey = some v → (∀ n, v ≠ .natV n) → GetUserID c = (0, false)) ∧
    (∀ n, ginGet c UserIDKey = some (.natV n) → GetUserID c = (n, true)) ∧
    (∀ n, GetUserID c = (n, true) → ginGet c UserIDKey = some (.natV n)) ∧
    (ginGet c UserEmailKey = none → GetUserEmail c = ("", false)) ∧
    (∀ v, ginGet c UserEmailKey = some v → (∀ s, v ≠ .strV s) → GetUserEmail c = ("", false)) ∧
    (∀ s, ginGet c UserEmailKey = some (.strV s) → GetUserEmail c = (s, true)) ∧
    (∀ s, GetUserEmail c = (s, true) → ginGet c UserEmailKey = some (.strV s)) := by
  refine ⟨?_, ?_, ?_, ?_, ?_, ?_, ?_, ?_⟩
  · intro h; simp [GetUserID, h]
  · intro v hv hne
    cases v with
    | natV n => exact absurd rfl (hne n)
    | strV s => simp [GetUserID, hv]
    | intV i => simp [GetUserID, hv]
    | boolV b => simp [GetUserID, hv]
  · intro n h; simp [GetUserID, h]
  · intro n h
    unfold GetUserID at h
    cases hg : ginGet c UserIDKey with
    | none => rw [hg] at h; simp at h
    | some v =>
        rw [hg] at h
        cases v with
        | natV m => simp at h; rw [h]
        | strV s => simp at h
        | intV i => simp at h
        | boolV b => simp at h
  · intro h; simp [GetUserEmail, h]
  · intro v hv hne
    cases v with
    | strV s => exact absurd rfl (hne s)
    | natV n => simp [GetUserEmail, hv]
    | intV i => simp [GetUserEmail, hv]
    | boolV b => simp [GetUserEmail, hv]
  · intro s h; simp [GetUserEmail, h]
  · intro s h
    unfold GetUserEmail at h
    cases hg : ginGet c UserEmailKey with
    | none => rw [hg] at h; simp at h
    | some v =>
        rw [hg] at h
        cases v with
        | strV t => simp at h; rw [h]
        | natV n => simp at h
        | intV i => simp at h
        | boolV b => simp at h

/-- Witness for C10 on concrete contexts exercising the absent-key,
wrong-type and expected-type cases of both accessors. -/
theorem context_accessors_total_witness :
    GetUserID [] = (0, false) ∧
    GetUserID [(UserIDKey, GinValue.strV "oops")] = (0, false) ∧
    GetUserID [(UserIDKey, GinValue.natV 7)] = (7, true) ∧
    GetUserEmail [] = ("", false) ∧
    GetUserEmail [(UserEmailKey, GinValue.natV 3)] = ("", false) ∧
    GetUserEmail [(UserEmailKey, GinValue.strV "a@b.c")] = ("a@b.c", true) :=
  ⟨(context_accessors_total []).1 rfl,
   (context_accessors_total [(UserIDKey, GinValue.strV "oops")]).2.1
     (GinValue.strV "oops") rfl (fun n h => nomatch h),
   (context_accessors_total [(UserIDKey, GinValue.natV 7)]).2.2.1 7 rfl,
   (context_accessors_total []).2.2.2.2.1 rfl,
   (context_accessors_total [(UserEmailKey, GinValue.natV 3)]).2.2.2.2.2.1
     (GinValue.natV 3) rfl (fun s h => nomatch h),
   (context_accessors_total [(UserEmailKey, GinValue.strV "a@b.c")]).2.2.2.2.2.2.1
     "a@b.c" rfl⟩

/-- C8: each of the three pre-validation failure shapes of the auth
middleware — absent Authorization header, a header without the bearer
scheme marker, and an empty token after the marker — is rejected with
status 401, the three messages are pairwise distinct, and the outcome in
each case is a rejection (the downstream handler is never invoked),
whatever token validator the middleware closes over. -/
theorem auth_middleware_shape_rejections
    (validateToken : String → Except GoError Claims) (h1 h2 h3 : String)
    (e1 : h1 = "")
    (e2a : h2 ≠ "") (e2b : ¬ hasBearerMarker h2 = true)
    (e3 : h3 = "Bearer ") :
    AuthMiddleware validateToken h1 =
      .reject 401 "unauthorized" "Authorization header is required" ∧
    AuthMiddleware validateToken h2 =
      .reject 401 "unauthorized" "Authorization header must start with \x27Bearer \x27" ∧
    AuthMiddleware validateToken h3 =
      .reject 401 "unauthorized" "Token is required" ∧
    ("Authorization header is required" ≠
       "Authorization header must start with \x27Bearer \x27" ∧
     "Authorization header is required" ≠ "Token is required" ∧
     "Authorization header must start with \x27Bearer \x27" ≠ "Token is required") := by
  subst e1 e3
  have hb : (h2 == "") = false := beq_eq_false_iff_ne.mpr e2a
  have hs : hasBearerMarker h2 = false := by simpa using e2b
  refine ⟨rfl, ?_, rfl, by decide, by decide, by decide⟩
  simp [AuthMiddleware, hb, hs]

/-- Witness for C8 at the three concrete headers of the failure shapes,
with a concrete validator. -/
theorem auth_middleware_shape_rejections_witness :
    AuthMiddleware (fun _ => .error .jwtInvalidToken) "" =
      .reject 401 "unauthorized" "Authorization header is required" ∧
    AuthMiddleware (fun _ => .error .jwtInvalidToken) "Basic abc" =
      .reject 401 "unauthorized" "Authorization header must start with \x27Bearer \x27" ∧
    AuthMiddleware (fun _ => .error .jwtInvalidToken) "Bearer " =
      .reject 401 "unauthorized" "Token is required" ∧
    ("Authorization header is required" ≠
       "Authorization header must start with \x27Bearer \x27" ∧
     "Authorization header is required" ≠ "Token is required" ∧
     "Authorization header must start with \x27Bearer \x27" ≠ "Token is required") :=
  auth_middleware_shape_rejections (fun _ => .error .jwtInvalidToken)
    "" "Basic abc" "Bearer " rfl (by decide) (by decide) rfl

/-- C3: token validation fails with the expired error exactly when the
token is well formed, names an HMAC-family algorithm, its signature
verifies under the manager secret, and its expires-at has passed; every
other failing token fails with the invalid-token error. -/
theorem validate_token_expired_iff (tm : TokenManager) (now : Int) (tok : JWTToken) :
    (tm.ValidateToken now tok = .error .jwtExpiredToken ↔
      (tok.wellFormed = true ∧ tok.alg.isHMAC = true ∧
       tok.signedWith = tm.secretKey ∧ tok.claims.expiresAt ≤ now)) ∧
    (∀ e, tm.ValidateToken now tok = .error e →
       e = .jwtExpiredToken ∨ e = .jwtInvalidToken) := by
  unfold TokenManager.ValidateToken jwtParseWithClaims
  by_cases hwf : tok.wellFormed = true
  · by_cases halg : tok.alg.isHMAC = true
    · by_cases hsig : tok.signedWith = tm.secretKey
      · by_cases hexp : tok.claims.expiresAt ≤ now
        · simp [hwf, halg, hsig, hexp, JWTParseError.isTokenExpired]
        · by_cases hnbf : now < tok.claims.notBefore
          · simp [hwf, halg, hsig, hexp, hnbf, JWTParseError.isTokenExpired]
          · simp [hwf, halg, hsig, hexp, hnbf, JWTParseError.isTokenExpired]
      · simp [hwf, halg, hsig, JWTParseError.isTokenExpired]
    · have halg2 : tok.alg.isHMAC = false := by simpa using halg
      simp [hwf, halg2, JWTParseError.isTokenExpired]
  · have hwf2 : tok.wellFormed = false := by simpa using hwf
    simp [hwf2, JWTParseError.isTokenExpired]

/-- Witness for C3: a token generated under the manager secret validated
after its window is rejected as expired, and the iff recovers that from
its concrete right-hand side. -/
theorem validate_token_expired_iff_witness :
    (NewTokenManager "secret" 24).ValidateToken 100000
        ((NewTokenManager "secret" 24).GenerateToken 0 1 "a@b.c") =
      .error .jwtExpiredToken :=
  (validate_token_expired_iff (NewTokenManager "secret" 24) 100000
      ((NewTokenManager "secret" 24).GenerateToken 0 1 "a@b.c")).1.mpr
    ⟨rfl, rfl, rfl, by decide⟩

/-- C1: when every todo bearing a given id is owned by a user other than
the caller — in particular when the todo exists but belongs to user A and
the caller is B — the GetTodo pipeline produces exactly the 404 not-found
response, byte-identical to the response for an id that exists nowhere,
and the internal ownership-mismatch error can never escape the service. -/
theorem cross_user_fetch_is_not_found (db : List Todo) (tid A B : Nat)
    (hAB : B ≠ A)
    (hOwn : ∀ t ∈ db, t.id = tid → t.userID = A) :
    handlerGetTodo db B tid = .errorResp 404 "not_found" "Todo not found" ∧
    handlerGetTodo [] B tid = .errorResp 404 "not_found" "Todo not found" ∧
    handlerGetTodo db B tid = handlerGetTodo [] B tid := by
  have hnone : db.find? (fun t => t.id == tid && t.userID == B) = none := by
    rw [List.find?_eq_none]
    intro t ht
    simp only [Bool.and_eq_true, beq_iff_eq, not_and]
    intro hid hu
    have hBA : B = A := by rw [← hu, hOwn t ht hid]
    exact hAB hBA
  have h1 : handlerGetTodo db B tid = .errorResp 404 "not_found" "Todo not found" := by
    unfold handlerGetTodo todoServiceGetByID todoRepoGetByID
    rw [hnone]
    rfl
  exact ⟨h1, rfl, by rw [h1]; rfl⟩

/-- Helper for C1: the defensive ownership re-check of the todo service
GetByID is dead under the owner-scoped repository query; no input makes
the service surface ErrUnauthorizedAccess. -/
theorem todoServiceGetByID_never_unauthorized (db : List Todo) (id u : Nat) :
    todoServiceGetByID db id u ≠ .error .unauthorizedAccess := by
  unfold todoServiceGetByID
  cases hf : todoRepoGetByID db id u with
  | error e =>
      cases he : e.is .gormRecordNotFound <;> simp [he]
  | ok t =>
      have ht : t.userID = u := todoRepoGetByID_ok_owner hf
      simp [ht]

/-- Witness for C1 at a concrete store: user 2 fetching the todo of user 1 gets
the same 404 as fetching from an empty store. -/
theorem cross_user_fetch_is_not_found_witness :
    handlerGetTodo [⟨1, "Buy milk", "", false, 1⟩] 2 1 =
      .errorResp 404 "not_found" "Todo not found" ∧
    handlerGetTodo [] 2 1 = .errorResp 404 "not_found" "Todo not found" ∧
    handlerGetTodo [⟨1, "Buy milk", "", false, 1⟩] 2 1 = handlerGetTodo [] 2 1 :=
  cross_user_fetch_is_not_found [⟨1, "Buy milk", "", false, 1⟩] 1 1 2
    (by decide) (by decide)

/-- C6: whenever the scoped fetch of the update path finds the todo, the
update succeeds and produces exactly the todo whose title, description and
completed are overwritten by the request fields that are present and kept
at their prior values where the request field is absent, and the store
saves that same merged record. -/
theorem update_partial_fields (db : List Todo) (id uid : Nat)
    (req : UpdateTodoRequest) (t : Todo)
    (hfetch : todoRepoGetByID db id uid = .ok t) :
    todoServiceUpdate db id req uid =
      .ok ({ t with title := req.title.getD t.title,
                    description := req.description.getD t.description,
                    completed := req.completed.getD t.completed },
           todoRepoUpdate db
             { t with title := req.title.getD t.title,
                      description := req.description.getD t.description,
                      completed := req.completed.getD t.completed }) := by
  have hu : t.userID = uid := todoRepoGetByID_ok_owner hfetch
  unfold todoServiceUpdate
  rw [hfetch]
  simp [hu]

/-- Witness for C6: sending only completed=true flips completed and keeps
title and description. -/
theorem update_partial_fields_witness :
    todoServiceUpdate [⟨1, "X", "Y", false, 1⟩] 1 ⟨none, none, some true⟩ 1 =
      .ok (⟨1, "X", "Y", true, 1⟩, [⟨1, "X", "Y", true, 1⟩]) :=
  update_partial_fields [⟨1, "X", "Y", false, 1⟩] 1 1 ⟨none, none, some true⟩
    ⟨1, "X", "Y", false, 1⟩ rfl

/-- C7 counterexample: a concrete run in which the existence check passes
and the scoped delete then affects zero rows does not fail with
ErrTodoNotFound, contradicting the claim. -/
theorem delete_race_not_todoNotFound :
    todoRepoGetByID [⟨1, "T", "D", false, 1⟩] 1 1 = .ok ⟨1, "T", "D", false, 1⟩ ∧
    todoRepoDelete ([] : List Todo) 1 1 = .error .gormRecordNotFound ∧
    todoServiceDelete [⟨1, "T", "D", false, 1⟩] [] 1 1 ≠ .error .todoNotFound := by
  refine ⟨rfl, rfl, ?_⟩
  have h3 : todoServiceDelete [⟨1, "T", "D", false, 1⟩] [] 1 1 =
      .error (.wrapf "failed to delete todo" .gormRecordNotFound) := rfl
  rw [h3]
  simp

/-- C7 amended: when the existence check passes but the scoped delete
affects zero rows, the service fails with the wrapped repository
record-not-found error — whose message is "failed to delete todo: record
not found", not "todo not found" — and the handler therefore surfaces 500
deletion_failed instead of the 404 of a fresh not-found. -/
theorem delete_race_wrapped_error (dbCheck dbDelete : List Todo) (id uid : Nat)
    (t : Todo)
    (hcheck : todoRepoGetByID dbCheck id uid = .ok t)
    (hzero : todoRepoDelete dbDelete id uid = .error .gormRecordNotFound) :
    todoServiceDelete dbCheck dbDelete id uid =
      .error (.wrapf "failed to delete todo" .gormRecordNotFound) ∧
    (GoError.wrapf "failed to delete todo" .gormRecordNotFound).message =
      "failed to delete todo: record not found" ∧
    handlerDeleteTodo dbCheck dbDelete uid id =
      .errorResp 500 "deletion_failed" "Failed to delete todo" := by
  have h1 : todoServiceDelete dbCheck dbDelete id uid =
      .error (.wrapf "failed to delete todo" .gormRecordNotFound) := by
    unfold todoServiceDelete
    rw [hcheck, hzero]
  refine ⟨h1, rfl, ?_⟩
  unfold handlerDeleteTodo
  rw [h1]
  rfl

/-- Witness for the amended C7 at the concrete race of the
counterexample. -/
theorem delete_race_wrapped_error_witness :
    todoServiceDelete [⟨1, "T", "D", false, 1⟩] [] 1 1 =
      .error (.wrapf "failed to delete todo" .gormRecordNotFound) ∧
    (GoError.wrapf "failed to delete todo" .gormRecordNotFound).message =
      "failed to delete todo: record not found" ∧
    handlerDeleteTodo [⟨1, "T", "D", false, 1⟩] [] 1 1 =
      .errorResp 500 "deletion_failed" "Failed to delete todo" :=
  delete_race_wrapped_error [⟨1, "T", "D", false, 1⟩] [] 1 1
    ⟨1, "T", "D", false, 1⟩ rfl rfl

/-- C9: registration makes no Create call on the user store whenever it
returns an error, and on success it makes exactly one Create, of a user
carrying the bcrypt hash of the request password, with the password
validated and the email previously absent from the store. -/
theorem register_atomic (tm : TokenManager) (now : Int) (salt nextId : Nat)
    (users : List User) (req : RegisterRequest) :
    (∀ e, (authServiceRegister tm now salt nextId users req).1 = .error e →
       ((authServiceRegister tm now salt nextId users req).2.all
          (fun c => !c.isCreate)) = true) ∧
    (∀ resp, (authServiceRegister tm now salt nextId users req).1 = .ok resp →
       ∃ u, (authServiceRegister tm now salt nextId users req).2 =
              [.getByEmail req.email, .create u] ∧
            u.password = bcryptGenerateFromPassword req.password DefaultCost salt ∧
            ValidatePasswordStrength req.password = .ok () ∧
            userRepoGetByEmail users req.email = .error .gormRecordNotFound) := by
  unfold authServiceRegister
  cases hlook : userRepoGetByEmail users req.email with
  | ok u =>
      constructor
      · intro e _; rfl
      · intro resp hresp; exact absurd hresp (by simp)
  | error e0 =>
      have he0 : e0 = .gormRecordNotFound := by
        unfold userRepoGetByEmail at hlook
        cases hf : users.find? (fun u => u.email == req.email) with
        | some u => rw [hf] at hlook; exact absurd hlook (by simp)
        | none => rw [hf] at hlook; injection hlook with h; exact h.symm
      subst he0
      cases hval : ValidatePasswordStrength req.password with
      | error ev =>
          constructor
          · intro e _; rfl
          · intro resp hresp; exact absurd hresp (by simp [GoError.is])
      | ok uv =>
          cases uv
          cases hhash : (Hasher.mk DefaultCost).HashPassword salt req.password with
          | error eh =>
              constructor
              · intro e _; rfl
              · intro resp hresp; exact absurd hresp (by simp [GoError.is])
          | ok hp =>
              have hp_eq : hp = bcryptGenerateFromPassword req.password DefaultCost salt := by
                unfold Hasher.HashPassword at hhash
                split at hhash
                · exact absurd hhash (by simp)
                · split at hhash
                  · exact absurd hhash (by simp)
                  · injection hhash with h; exact h.symm
              constructor
              · intro e he; exact absurd he (by simp [GoError.is])
              · intro resp _
                exact ⟨{ id := nextId, email := req.email, password := hp },
                       rfl, hp_eq, rfl, rfl⟩

/-- Witness for C9: registering an already-present email returns an error
and the recorded store trace contains no Create call. -/
theorem register_atomic_witness :
    ((authServiceRegister (NewTokenManager "secret" 24) 0 0 2
        [{ id := 1, email := "a@example.com",
           password := bcryptGenerateFromPassword "password123" 12 0 }]
        { email := "a@example.com", password := "password123" }).2.all
      (fun c => !c.isCreate)) = true :=
  (register_atomic (NewTokenManager "secret" 24) 0 0 2
      [{ id := 1, email := "a@example.com",
         password := bcryptGenerateFromPassword "password123" 12 0 }]
      { email := "a@example.com", password := "password123" }).1
    .emailAlreadyExists rfl

/-- C2 evidence: at the service layer a wrong password for a registered
email and a wholly unregistered email fail with the one ErrInvalidCredentials
value, but the handler — matching the error message against the literal
"invalid credentials" while the service error message is "invalid email or
password" — surfaces both as HTTP 500 login_failed, not as the 401 the
claim, the swagger annotation and the integration test state. -/
theorem login_collapse_service_but_500_http :
    authServiceLogin (NewTokenManager "secret" 24) 0
        [{ id := 1, email := "test@example.com",
           password := bcryptGenerateFromPassword "correctpassword" 12 0 }]
        { email := "test@example.com", password := "wrongpassword1" } =
      .error .invalidCredentials ∧
    authServiceLogin (NewTokenManager "secret" 24) 0
        [{ id := 1, email := "test@example.com",
           password := bcryptGenerateFromPassword "correctpassword" 12 0 }]
        { email := "ghost@example.com", password := "wrongpassword1" } =
      .error .invalidCredentials ∧
    handlerLogin (NewTokenManager "secret" 24) 0
        [{ id := 1, email := "test@example.com",
           password := bcryptGenerateFromPassword "correctpassword" 12 0 }]
        { email := "test@example.com", password := "wrongpassword1" } =
      .errorResp 500 "login_failed" "Failed to authenticate user" ∧
    handlerLogin (NewTokenManager "secret" 24) 0
        [{ id := 1, email := "test@example.com",
           password := bcryptGenerateFromPassword "correctpassword" 12 0 }]
        { email := "ghost@example.com", password := "wrongpassword1" } =
      .errorResp 500 "login_failed" "Failed to authenticate user" ∧
    GoError.message .invalidCredentials ≠ "invalid credentials" :=
  ⟨rfl, rfl, rfl, rfl, by decide⟩
